import Mathlib

/-!
Verification of the authorization and session-lifecycle logic of the
`myauthprouction` server (an Express application with Google OAuth login,
an email-based authorization policy, and session-gated routes).

The repository contains three revisions of the same `server.js`:
`src/server.js` and `src/unnamed/part_000` (combined-condition authorization,
static dashboard file), and `src/unnamed/part_001` (two-if authorization,
inline role-keyed dashboard HTML).  The definitions below are shallow
embeddings of those files; JavaScript strings are modelled as Lean `String`s
(sequences of characters) and the builtins used by the source
(`String.prototype.endsWith`, `encodeURIComponent`) are modelled by their
ECMAScript specifications.
-/

/-- Model of JavaScript `s.endsWith(post)`: exact tail match of the
character sequence (ECMAScript String.prototype.endsWith with no
end-position argument). -/
def jsEndsWith (s post : String) : Bool :=
  post.data.isSuffixOf s.data

/-- Institutional email suffix tested by the verify callback
(`"@stu.pathfinder-mm.org"` in all three revisions). -/
def stuSuffix : String := "@stu.pathfinder-mm.org"

/-- The single allow-listed address (`"avagarimike11@gmail.com"`). -/
def allowListed : String := "avagarimike11@gmail.com"

/-- The rejection message passed to `done(null, false, {message})` when the
email is not authorized. -/
def rejectMessage : String :=
  "You are not a verified student of Pathfinder Institute Myanmar."

/-- The identity fields consumed from the Google profile
(`profile.emails[0].value` and `profile.displayName`). -/
structure Profile where
  email : String
  displayName : String
deriving DecidableEq, Repr

/-- The user object built by the verify callback:
`{ email, name: profile.displayName, role }`. -/
structure User where
  email : String
  name : String
  role : String
deriving DecidableEq, Repr

/-- Outcome of the GoogleStrategy verify callback:
`done(null, user)` on success, `done(null, false, {message})` on
rejection. -/
inductive VerifyResult where
  | success (user : User)
  | failure (message : String)
deriving DecidableEq, Repr

/-- Verify callback of `src/server.js` lines 80-102 and
`src/unnamed/part_000` lines 83-104: `role` starts as `"general"` and
`isAuthorized` as `false`; a single combined condition
`email.endsWith("@stu.pathfinder-mm.org") || email === "avagarimike11@gmail.com"`
sets `role = "student"` and `isAuthorized = true`; if not authorized the
callback fails with `rejectMessage`, otherwise it succeeds with
`{ email, name: profile.displayName, role }`. -/
def verifyCombined (profile : Profile) : VerifyResult :=
  let email := profile.email
  let st :=
    if jsEndsWith email stuSuffix || email == allowListed then
      ("student", true)
    else
      ("general", false)
  if !st.2 then
    .failure rejectMessage
  else
    .success { email := email, name := profile.displayName, role := st.1 }

/-- Verify callback of `src/unnamed/part_001` lines 83-109: same
initialization, but two separate if-statements — one for the institutional
suffix, one for the allow-listed address — each setting
`role = "student"` and `isAuthorized = true`. -/
def verifyTwoIf (profile : Profile) : VerifyResult :=
  let email := profile.email
  let st0 := ("general", false)
  let st1 := if jsEndsWith email stuSuffix then ("student", true) else st0
  let st2 := if email == allowListed then ("student", true) else st1
  if !st2.2 then
    .failure rejectMessage
  else
    .success { email := email, name := profile.displayName, role := st2.1 }

/-- C1: the authorization policy applied at login marks an email authorized
with role "student" iff it ends (exact tail match) with
"@stu.pathfinder-mm.org" or is exactly "avagarimike11@gmail.com"; every
other email is not authorized; "a@stu.pathfinder-mm.org" is authorized with
role "student" and "random@gmail.com" is not. -/
theorem verifyCombined_authorized_iff :
    ∀ e n : String,
      ((∃ u : User, verifyCombined ⟨e, n⟩ = .success u ∧ u.role = "student") ↔
        ((∃ pre : List Char, pre ++ stuSuffix.data = e.data) ∨ e = allowListed)) ∧
      ((∃ u : User, verifyCombined ⟨e, n⟩ = .success u) ↔
        ((∃ pre : List Char, pre ++ stuSuffix.data = e.data) ∨ e = allowListed)) ∧
      verifyCombined ⟨"a@stu.pathfinder-mm.org", n⟩ =
        .success ⟨"a@stu.pathfinder-mm.org", n, "student"⟩ ∧
      verifyCombined ⟨"random@gmail.com", n⟩ = .failure rejectMessage := by
  intro e n
  have hcond : (jsEndsWith e stuSuffix || e == allowListed) = true ↔
      ((∃ pre : List Char, pre ++ stuSuffix.data = e.data) ∨ e = allowListed) := by
    simp only [jsEndsWith, Bool.or_eq_true, List.isSuffixOf_iff_suffix, beq_iff_eq]
    constructor
    · rintro (h | h)
      · exact Or.inl h
      · exact Or.inr h
    · rintro (h | h)
      · exact Or.inl h
      · exact Or.inr h
  have hpos : (jsEndsWith "a@stu.pathfinder-mm.org" stuSuffix ||
      "a@stu.pathfinder-mm.org" == allowListed) = true := by decide
  have hneg : (jsEndsWith "random@gmail.com" stuSuffix ||
      "random@gmail.com" == allowListed) = false := by decide
  refine ⟨?_, ?_, by simp [verifyCombined, hpos], by simp [verifyCombined, hneg]⟩
  · constructor
    · rintro ⟨u, hu, hrole⟩
      rw [← hcond]
      by_contra hc
      rw [Bool.not_eq_true] at hc
      simp [verifyCombined, hc] at hu
    · intro h
      rw [← hcond] at h
      exact ⟨⟨e, n, "student"⟩, by simp [verifyCombined, h], rfl⟩
  · constructor
    · rintro ⟨u, hu⟩
      rw [← hcond]
      by_contra hc
      rw [Bool.not_eq_true] at hc
      simp [verifyCombined, hc] at hu
    · intro h
      rw [← hcond] at h
      exact ⟨⟨e, n, "student"⟩, by simp [verifyCombined, h]⟩

/-- C10: the two-if revision of the verify callback is extensionally equal
to the combined-condition revisions: every profile produces the same
verify outcome (same authorization, same role, same rejection message). -/
theorem verifyTwoIf_eq_verifyCombined :
    ∀ p : Profile, verifyTwoIf p = verifyCombined p := by
  intro p
  unfold verifyTwoIf verifyCombined
  by_cases h1 : jsEndsWith p.email stuSuffix
  · by_cases h2 : (p.email == allowListed) = true <;> simp [h1, h2]
  · by_cases h2 : (p.email == allowListed) = true <;>
      simp [h1, h2, Bool.false_or]

/-- The JSON body produced by the `/session-info` handler:
`{loggedIn: true, email, name, role}`. -/
structure SessionInfo where
  loggedIn : Bool
  email : String
  name : String
  role : String
deriving DecidableEq, Repr

/-- An HTTP response as produced by the handlers under verification:
a redirect (`res.redirect`), a JSON body (`res.json`), a static file
(`res.sendFile`), an inline HTML page (`res.send`), or a server error
(what Express produces when a handler throws). -/
inductive Response where
  | redirect (location : String)
  | json (body : SessionInfo)
  | file (path : String)
  | html (body : String)
  | serverError
deriving DecidableEq, Repr

/-- The request state visible to the guarded handlers: `req.user` as
established by `passport.session()` (absent when the session is missing,
expired, or was never authenticated). -/
structure Request where
  user : Option User
deriving DecidableEq, Repr

/-- Passport's `req.isAuthenticated()`: true iff a user is established on
the request's session. -/
def Request.isAuth (req : Request) : Bool :=
  req.user.isSome

/-- The route guard (`src/server.js` lines 140-143, identical in the other
revisions): `if (req.isAuthenticated()) return next(); res.redirect("/index.html")`. -/
def ensureLoggedIn (req : Request) (next : Unit → Response) : Response :=
  if req.isAuth then next () else .redirect "/index.html"

/-- Passport user (de)serialization, `src/server.js` line 106:
`serializeUser((user, done) => done(null, user))` — the identity. -/
def serializeUser (u : User) : User := u

/-- Passport user deserialization, `src/server.js` line 107:
`deserializeUser((obj, done) => done(null, obj))` — the identity. -/
def deserializeUser (u : User) : User := u

/-- The `/session-info` handler body (`src/server.js` lines 146-153):
`res.json({loggedIn: true, email: req.user.email, name: req.user.name,
role: req.user.role})`.  When `req.user` is absent the property accesses
would throw, which Express surfaces as a server error; the guard prevents
this case from being reached. -/
def sessionInfoHandler : Option User → Response
  | some u => .json { loggedIn := true, email := u.email, name := u.name, role := u.role }
  | none => .serverError

/-- The `/dashboard` handler body of `src/server.js` lines 156-159 and
`src/unnamed/part_000` lines 157-160:
`res.sendFile(path.join(process.cwd(), "public", "dashboard.html"))` —
independent of `req.user`. -/
def dashboardHandlerFile : Response :=
  .file "public/dashboard.html"

/-- The guarded `/session-info` route (`app.get("/session-info",
ensureLoggedIn, handler)`). -/
def sessionInfoRoute (req : Request) : Response :=
  ensureLoggedIn req fun _ => sessionInfoHandler req.user

/-- The guarded `/dashboard` route of `src/server.js`
(`app.get("/dashboard", ensureLoggedIn, handler)`). -/
def dashboardRoute (req : Request) : Response :=
  ensureLoggedIn req fun _ => dashboardHandlerFile

/-- C2: on an unauthenticated request the guard never executes the handler
(the result is the redirect to the public entry point, independent of the
handler) and both guarded routes redirect to `/index.html`; on an
authenticated request the guard invokes the handler. -/
theorem ensureLoggedIn_guard_contract :
    ∀ (handler other : Unit → Response) (u : User),
      ensureLoggedIn { user := none } handler = .redirect "/index.html" ∧
      ensureLoggedIn { user := none } handler = ensureLoggedIn { user := none } other ∧
      ensureLoggedIn { user := some u } handler = handler () ∧
      sessionInfoRoute { user := none } = .redirect "/index.html" ∧
      dashboardRoute { user := none } = .redirect "/index.html" ∧
      sessionInfoRoute { user := some u } =
        .json { loggedIn := true, email := u.email, name := u.name, role := u.role } ∧
      dashboardRoute { user := some u } = .file "public/dashboard.html" := by
  intro handler other u
  refine ⟨rfl, rfl, rfl, rfl, rfl, rfl, rfl⟩

/-- C4: for a session whose login established the user `u` (a successful
verify outcome), the stored-then-deserialized user is `u` itself, and
`/session-info` returns exactly `{loggedIn: true, email, name, role}` with
`u`'s fields. -/
theorem sessionInfo_matches_login :
    ∀ (p : Profile) (u : User),
      verifyCombined p = .success u →
      sessionInfoRoute { user := some (deserializeUser (serializeUser u)) } =
        .json { loggedIn := true, email := u.email, name := u.name, role := u.role } := by
  intro p u _
  rfl

/-- Witness for `sessionInfo_matches_login` at the student email
`a@stu.pathfinder-mm.org`. -/
theorem sessionInfo_matches_login_witness :
    verifyCombined ⟨"a@stu.pathfinder-mm.org", "Alice"⟩ =
      .success ⟨"a@stu.pathfinder-mm.org", "Alice", "student"⟩ ∧
    sessionInfoRoute
        { user := some (deserializeUser (serializeUser
            ⟨"a@stu.pathfinder-mm.org", "Alice", "student"⟩)) } =
      .json { loggedIn := true, email := "a@stu.pathfinder-mm.org",
              name := "Alice", role := "student" } :=
  ⟨by decide,
   sessionInfo_matches_login ⟨"a@stu.pathfinder-mm.org", "Alice"⟩
     ⟨"a@stu.pathfinder-mm.org", "Alice", "student"⟩ (by decide)⟩

/-- A session record as kept by the store: the serialized user plus the
expiry bookkeeping maintained by the session middleware. -/
structure SessionRecord where
  user : User
  expiresAt : Nat
  lastActivityAt : Nat
deriving DecidableEq, Repr

/-- The session store: records keyed by session ID (the Redis store
namespaces keys under `sess:`; the key-value map itself is modelled as an
association list). -/
abbrev SessionStore := List (String × SessionRecord)

/-- Store lookup: `get(key) -> value | absent`. -/
def storeGet (store : SessionStore) (sid : String) : Option SessionRecord :=
  (store.find? fun kv => kv.1 == sid).map fun kv => kv.2

/-- Store deletion: `delete(key)`; removing an absent key is a no-op. -/
def storeDelete (store : SessionStore) (sid : String) : SessionStore :=
  store.filter fun kv => kv.1 != sid

/-- Store insertion/overwrite: `set(key, value, ttl)`. -/
def storeSet (store : SessionStore) (sid : String) (record : SessionRecord) :
    SessionStore :=
  (sid, record) :: storeDelete store sid

/-- Session-level authentication predicate: the session ID resolves to a
record in the store. -/
def isAuthenticatedSid (store : SessionStore) (sid : String) : Bool :=
  (storeGet store sid).isSome

/-- The `/logout` handler (`src/server.js` lines 161-166, identical in the
other revisions): `req.logout` removes the login state, then
`req.session.destroy(() => res.redirect("/index.html"))` deletes the
session record unconditionally — the destroy callback ignores any error,
so the caller always receives the redirect. -/
def logoutRoute (store : SessionStore) (sid : String) : SessionStore × Response :=
  (storeDelete store sid, .redirect "/index.html")

/-- After a deletion the session ID no longer resolves in the store. -/
theorem storeGet_storeDelete (store : SessionStore) (sid : String) :
    storeGet (storeDelete store sid) sid = none := by
  have h : (storeDelete store sid).find? (fun kv => kv.1 == sid) = none := by
    rw [List.find?_eq_none]
    intro kv hkv
    have hmem := (List.mem_filter.mp hkv).2
    simp only [bne_iff_ne, ne_eq] at hmem
    simp [hmem]
  simp [storeGet, h]

/-- C6: logout is idempotent and total: after logout the session ID is no
longer authenticated, the caller always receives the redirect to the public
entry point, and a second logout on the now-absent session ID produces the
identical outcome with no error surfaced. -/
theorem logout_idempotent :
    ∀ (store : SessionStore) (sid : String),
      isAuthenticatedSid (logoutRoute store sid).1 sid = false ∧
      (logoutRoute store sid).2 = .redirect "/index.html" ∧
      logoutRoute (logoutRoute store sid).1 sid = logoutRoute store sid := by
  intro store sid
  refine ⟨?_, rfl, ?_⟩
  · simp [isAuthenticatedSid, logoutRoute, storeGet_storeDelete]
  · simp [logoutRoute, storeDelete, List.filter_filter]

/-- TTL configured on the Redis store (`ttl: 14 * 24 * 60 * 60`, in
seconds; `src/server.js` line 37). -/
def storeTTLSeconds : Nat := 14 * 24 * 60 * 60

/-- Cookie lifetime configured on the session middleware
(`maxAge: 14 * 24 * 60 * 60 * 1000`, in milliseconds; `src/server.js`
line 61). -/
def cookieMaxAgeMs : Nat := 14 * 24 * 60 * 60 * 1000

/-- Milliseconds in one day. -/
def dayMs : Nat := 24 * 60 * 60 * 1000

/-- Modelled from the spec: session creation on successful login; the new
record expires one full TTL window after creation (the write itself is
performed by the session middleware configured in `src/server.js`). -/
def createSession (now : Nat) (u : User) : SessionRecord :=
  { user := u, expiresAt := now + cookieMaxAgeMs, lastActivityAt := now }

/-- Modelled from the spec: the rolling-TTL refresh that the session
middleware performs on each authenticated request.  `src/server.js`
configures `rolling: true` with `cookie.maxAge` of 14 days and a store TTL
of 14 days; the refresh itself happens inside `express-session` /
`connect-redis`, which are not part of the repository: on each request
that resolves an authenticated session the record's expiry is reset to the
current time plus the full TTL window. -/
def touchSession (now : Nat) (s : SessionRecord) : SessionRecord :=
  { s with expiresAt := now + cookieMaxAgeMs, lastActivityAt := now }

/-- C3: the configured TTLs agree at 14 days; a session created at time T
and touched by a guarded request at T + 13 days ends with expiry
(T + 13 days) + 14 days; and for any record satisfying the store invariant
(expiry = last activity + TTL), a touch at a later time never shrinks the
expiry. -/
theorem rolling_ttl_extends :
    ∀ (T : Nat) (u : User) (s : SessionRecord) (now : Nat),
      storeTTLSeconds * 1000 = cookieMaxAgeMs ∧
      cookieMaxAgeMs = 14 * dayMs ∧
      (touchSession (T + 13 * dayMs) (createSession T u)).expiresAt =
        (T + 13 * dayMs) + 14 * dayMs ∧
      (touchSession (T + 13 * dayMs) (createSession T u)).lastActivityAt =
        T + 13 * dayMs ∧
      (s.expiresAt = s.lastActivityAt + cookieMaxAgeMs →
        s.lastActivityAt ≤ now →
        s.expiresAt ≤ (touchSession now s).expiresAt) := by
  intro T u s now
  refine ⟨by norm_num [storeTTLSeconds, cookieMaxAgeMs],
          by norm_num [cookieMaxAgeMs, dayMs], ?_, rfl, ?_⟩
  · show T + 13 * dayMs + cookieMaxAgeMs = T + 13 * dayMs + 14 * dayMs
    norm_num [cookieMaxAgeMs, dayMs]
  · intro hinv hle
    rw [hinv]
    exact Nat.add_le_add_right hle cookieMaxAgeMs

/-- Witness for `rolling_ttl_extends`: a concrete session created at time 0
and touched at day 13 expires at day 13 + 14 days, which is no earlier than
the original day-14 expiry. -/
theorem rolling_ttl_extends_witness :
    (touchSession (0 + 13 * dayMs)
        (createSession 0 ⟨"a@stu.pathfinder-mm.org", "Alice", "student"⟩)).expiresAt =
      (0 + 13 * dayMs) + 14 * dayMs ∧
    (createSession 0 ⟨"a@stu.pathfinder-mm.org", "Alice", "student"⟩).expiresAt ≤
      (touchSession (0 + 13 * dayMs)
        (createSession 0 ⟨"a@stu.pathfinder-mm.org", "Alice", "student"⟩)).expiresAt :=
  ⟨(rolling_ttl_extends 0 ⟨"a@stu.pathfinder-mm.org", "Alice", "student"⟩
      (createSession 0 ⟨"a@stu.pathfinder-mm.org", "Alice", "student"⟩)
      (0 + 13 * dayMs)).2.2.1,
   (rolling_ttl_extends 0 ⟨"a@stu.pathfinder-mm.org", "Alice", "student"⟩
      (createSession 0 ⟨"a@stu.pathfinder-mm.org", "Alice", "student"⟩)
      (0 + 13 * dayMs)).2.2.2.2 rfl (Nat.zero_le _)⟩

/-- Upper-case hexadecimal digit for a value below 16, as produced by the
percent-encoding of `encodeURIComponent`. -/
def hexDigitChar (n : Nat) : Char :=
  if n < 10 then Char.ofNat (48 + n) else Char.ofNat (55 + n)

/-- UTF-8 byte sequence of a character, used by the percent-encoding of
`encodeURIComponent`. -/
def utf8Bytes (c : Char) : List Nat :=
  let n := c.toNat
  if n < 128 then [n]
  else if n < 2048 then [192 + n / 64, 128 + n % 64]
  else if n < 65536 then [224 + n / 4096, 128 + n / 64 % 64, 128 + n % 64]
  else [240 + n / 262144, 128 + n / 4096 % 64, 128 + n / 64 % 64, 128 + n % 64]

/-- Characters left unescaped by `encodeURIComponent` (ECMAScript:
letters, digits, and `- _ . ! ~ * ' ( )`). -/
def isUriUnescaped (c : Char) : Bool :=
  c.isAlpha || c.isDigit || c == '-' || c == '_' || c == '.' || c == '!' ||
  c == '~' || c == '*' || c == Char.ofNat 39 || c == '(' || c == ')'

/-- Model of JavaScript `encodeURIComponent`: unescaped characters are kept,
every other character is replaced by the percent-encoding of its UTF-8
bytes. -/
def encodeURIComponent (s : String) : String :=
  String.mk (s.data.flatMap fun c =>
    if isUriUnescaped c then [c]
    else (utf8Bytes c).flatMap fun b => ['%', hexDigitChar (b / 16), hexDigitChar (b % 16)])

/-- The `/auth/failure` handler (`src/server.js` lines 129-134): reads the
flashed error messages, falls back to `"Login failed."` when none exist,
and redirects to `/index.html?authError=` followed by the URL-encoded
message. -/
def authFailure (flashMessages : List String) : Response :=
  let errorMessage :=
    match flashMessages with
    | [] => "Login failed."
    | m :: _ => m
  .redirect ("/index.html?authError=" ++ encodeURIComponent errorMessage)

/-- The `/auth/google/callback` route (`src/server.js` lines 117-127)
composed with passport's `failureRedirect: "/auth/failure"` and
`failureFlash: true`: a successful verify outcome reaches the success
handler `res.redirect("/dashboard")`; a verify rejection flashes the
strategy's message and lands in the `/auth/failure` handler. -/
def authCallbackRoute (r : VerifyResult) : Response :=
  match r with
  | .success _ => .redirect "/dashboard"
  | .failure msg => authFailure [msg]

/-- A login attempt as observed at the callback route: either the provider
exchange produced a verified profile that is passed to the verify
callback, or identity verification itself failed, in which case no
strategy flash message exists. -/
inductive LoginAttempt where
  | verified (profile : Profile)
  | verificationError
deriving DecidableEq, Repr

/-- End-to-end behavior of the login callback for the two attempt kinds. -/
def loginCallback : LoginAttempt → Response
  | .verified p => authCallbackRoute (verifyCombined p)
  | .verificationError => authFailure []

/-- Completion of a login at the callback route: a successful, authorized
verify outcome creates the session record in the store and sends the
client to the dashboard; a rejection leaves the store untouched and sends
the client through `/auth/failure` back to the public entry point carrying
the policy message. -/
def completeLogin (now : Nat) (p : Profile) (store : SessionStore) (sid : String) :
    SessionStore × Response :=
  match verifyCombined p with
  | .success u => (storeSet store sid (createSession now u), .redirect "/dashboard")
  | .failure msg => (store, authFailure [msg])

/-- C5: for every identity the policy rejects, completing login fails with
the policy's human-readable reason (the specific "not a verified student"
message), that reason is propagated to the client in the failure redirect,
no session record is created (the store is returned unchanged), and the
client lands back at the public entry point. -/
theorem unauthorized_login_rejected :
    ∀ (p : Profile) (store : SessionStore) (sid : String) (now : Nat) (msg : String),
      verifyCombined p = .failure msg →
      completeLogin now p store sid =
        (store, .redirect ("/index.html?authError=" ++ encodeURIComponent msg)) ∧
      msg = rejectMessage := by
  intro p store sid now msg h
  have hmsg : msg = rejectMessage := by
    by_cases hc : (jsEndsWith p.email stuSuffix || p.email == allowListed) = true
    · simp [verifyCombined, hc] at h
    · rw [Bool.not_eq_true] at hc
      simp [verifyCombined, hc] at h
      exact h.symm
  refine ⟨?_, hmsg⟩
  simp [completeLogin, h, authFailure]

/-- Witness for `unauthorized_login_rejected` at the rejected email
`random@gmail.com` with an empty store. -/
theorem unauthorized_login_rejected_witness :
    verifyCombined ⟨"random@gmail.com", "Rae"⟩ = .failure rejectMessage ∧
    completeLogin 0 ⟨"random@gmail.com", "Rae"⟩ [] "sid0" =
      ([], .redirect ("/index.html?authError=" ++ encodeURIComponent rejectMessage)) :=
  ⟨by decide,
   (unauthorized_login_rejected ⟨"random@gmail.com", "Rae"⟩ [] "sid0" 0 rejectMessage
      (by decide)).1⟩

/-- C8 counterexample: with no flash message the failure redirect carries
the URL-encoded string "Login failed." (with a trailing period), not the
string "Login failed" stated by the claim. -/
theorem loginFailure_generic_message_counterexample :
    loginCallback .verificationError ≠
      .redirect ("/index.html?authError=" ++ encodeURIComponent "Login failed") ∧
    loginCallback .verificationError =
      .redirect ("/index.html?authError=" ++ encodeURIComponent "Login failed.") := by
  constructor
  · decide
  · rfl

/-- C8 (amended): on verify success the callback redirects to `/dashboard`;
on a verify rejection it redirects to the public failure page whose
`authError` query parameter carries the URL-encoded policy message; when
identity verification fails and no strategy message exists, the generic
message is `"Login failed."`. -/
theorem loginCallback_redirect_behavior :
    ∀ (p : Profile) (u : User) (m : String),
      authCallbackRoute (.success u) = .redirect "/dashboard" ∧
      authCallbackRoute (.failure m) =
        .redirect ("/index.html?authError=" ++ encodeURIComponent m) ∧
      loginCallback (.verified p) = authCallbackRoute (verifyCombined p) ∧
      loginCallback .verificationError =
        .redirect ("/index.html?authError=" ++ encodeURIComponent "Login failed.") := by
  intro p u m
  exact ⟨rfl, rfl, rfl, rfl⟩

/-- Modelled from the spec: result of resolving a session ID against the
store during a guarded-route check.  The session load is performed by the
session middleware, which is not part of the repository; per the spec's
error taxonomy the storage-unreachable case (`SessionStoreError`) is kept
as a variant of its own, distinct from an absent session. -/
inductive LookupResult where
  | found (record : SessionRecord)
  | absent
  | storeError
deriving DecidableEq, Repr

/-- Modelled from the spec: the session lookup over a store that may be
unreachable; an outage yields `storeError` without consulting or mutating
the records, an absent key yields `absent`. -/
def lookupSession (outage : Bool) (store : SessionStore) (sid : String) :
    LookupResult :=
  if outage then .storeError
  else
    match storeGet store sid with
    | some record => .found record
    | none => .absent

/-- Modelled from the spec: outcome of a guarded-route check — the handler
ran, the anonymous redirect to the public entry point, or a surfaced
transient failure. -/
inductive GuardOutcome where
  | handled (response : Response)
  | anonymousRedirect
  | transientFailure
deriving DecidableEq, Repr

/-- Modelled from the spec: the guarded-route check with the store boundary
made explicit.  An absent session redirects to the public entry point, a
store outage is surfaced as a transient failure, a found session runs the
handler; the store is returned unchanged in every case (the check never
destroys a record). -/
def guardedCheck (outage : Bool) (store : SessionStore) (sid : String)
    (handler : SessionRecord → Response) : GuardOutcome × SessionStore :=
  (match lookupSession outage store sid with
   | .found record => .handled (handler record)
   | .absent => .anonymousRedirect
   | .storeError => .transientFailure,
   store)

/-- C7: a store outage during a guarded-route check is surfaced as a
transient failure, which is a different result variant from both the
anonymous redirect and any handled response, and the check leaves the
store (hence any otherwise-valid session record) untouched; a genuine
absent-session lookup yields the anonymous redirect instead. -/
theorem storeError_distinct_from_absent :
    ∀ (store : SessionStore) (sid : String) (handler : SessionRecord → Response),
      lookupSession true store sid = .storeError ∧
      (guardedCheck true store sid handler).1 = .transientFailure ∧
      GuardOutcome.transientFailure ≠ GuardOutcome.anonymousRedirect ∧
      (∀ r : Response, GuardOutcome.transientFailure ≠ .handled r) ∧
      (guardedCheck true store sid handler).2 = store ∧
      lookupSession false [] sid = .absent ∧
      (guardedCheck false [] sid handler).1 = .anonymousRedirect := by
  intro store sid handler
  refine ⟨rfl, rfl, by simp, fun r => by simp, rfl, rfl, rfl⟩

/-- The student content block of the part_001 dashboard template. -/
def studentBlock : String :=
  "<div class=\"card stu\"><h3>Student Docs Section</h3></div>"

/-- The generic content block of the part_001 dashboard template. -/
def generalBlock : String :=
  "<div class=\"card gen\"><h3>Enrollment Section</h3></div>"

/-- Leading part of the part_001 dashboard template, up to the interpolated
user name. -/
def dashboardHead : String :=
  "\n    <html>\n      <head>\n        <title>Dashboard</title>\n        <style>\n          body \x7b font-family: Arial; padding: 20px; \x7d\n          .card \x7b padding: 20px; border: 1px solid #ddd; border-radius: 10px; margin-top: 20px; \x7d\n          .stu \x7b background: #e3f2fd; \x7d\n          .gen \x7b background: #fff3e0; \x7d\n        </style>\n      </head>\n      <body>\n        <h2>Welcome "

/-- Trailing part of the part_001 dashboard template, after the role-keyed
content block. -/
def dashboardTail : String :=
  "\n        <br>\n        <a href=\"/logout\">Logout</a>\n      </body>\n    </html>\n  "

/-- The dashboard page of `src/unnamed/part_001` lines 150-177: the
template literal interpolating `name`, `email`, `role`, and the ternary
`role === "student" ? <student block> : <generic block>`. -/
def dashboardHtml (name email role : String) : String :=
  dashboardHead ++ name ++ "</h2>\n        <p>Email: " ++ email ++
    "</p>\n        <p>Role: <b>" ++ role ++ "</b></p>\n        " ++
    (if role == "student" then studentBlock else generalBlock) ++
    dashboardTail

/-- The `/dashboard` handler of `src/unnamed/part_001`:
`const { name, email, role } = req.user; res.send(<template>)`. -/
def dashboardHandlerHtml (u : User) : Response :=
  .html (dashboardHtml u.name u.email u.role)

/-- The guarded `/dashboard` route of `src/unnamed/part_001`. -/
def dashboardRouteHtml (req : Request) : Response :=
  ensureLoggedIn req fun _ =>
    match req.user with
    | some u => dashboardHandlerHtml u
    | none => .serverError

/-- C9 counterexample: in `src/server.js` two authenticated dashboard
requests whose sessions carry different roles ("student" vs "general")
receive the identical response — the static file `public/dashboard.html` —
so the served view is not keyed on the session's role there. -/
theorem dashboard_not_roleKeyed_counterexample :
    dashboardRoute { user := some ⟨"a@stu.pathfinder-mm.org", "Alice", "student"⟩ } =
      dashboardRoute { user := some ⟨"random@gmail.com", "Randy", "general"⟩ } ∧
    dashboardRoute { user := some ⟨"a@stu.pathfinder-mm.org", "Alice", "student"⟩ } =
      .file "public/dashboard.html" :=
  ⟨rfl, rfl⟩

/-- C9 (amended): in the revision that renders the dashboard inline
(`src/unnamed/part_001`), the authenticated view is keyed on the session's
role with exactly the two distinct variants — the student content block
when the role is "student" and the generic content block otherwise. -/
theorem dashboardHtml_role_keyed :
    ∀ u : User,
      (u.role = "student" →
        dashboardRouteHtml { user := some u } =
          .html (dashboardHead ++ u.name ++ "</h2>\n        <p>Email: " ++
            u.email ++ "</p>\n        <p>Role: <b>" ++ u.role ++
            "</b></p>\n        " ++ studentBlock ++ dashboardTail)) ∧
      (u.role ≠ "student" →
        dashboardRouteHtml { user := some u } =
          .html (dashboardHead ++ u.name ++ "</h2>\n        <p>Email: " ++
            u.email ++ "</p>\n        <p>Role: <b>" ++ u.role ++
            "</b></p>\n        " ++ generalBlock ++ dashboardTail)) ∧
      studentBlock ≠ generalBlock := by
  intro u
  refine ⟨?_, ?_, by decide⟩
  · intro h
    simp [dashboardRouteHtml, ensureLoggedIn, Request.isAuth,
      dashboardHandlerHtml, dashboardHtml, h]
  · intro h
    have hb : (u.role == "student") = false := by
      exact beq_eq_false_iff_ne.mpr h
    simp [dashboardRouteHtml, ensureLoggedIn, Request.isAuth,
      dashboardHandlerHtml, dashboardHtml, hb]

/-- Witness for `dashboardHtml_role_keyed`: a student-role session receives
the student block and a general-role session receives the generic block. -/
theorem dashboardHtml_role_keyed_witness :
    dashboardRouteHtml
        { user := some ⟨"a@stu.pathfinder-mm.org", "Alice", "student"⟩ } =
      .html (dashboardHead ++ "Alice" ++ "</h2>\n        <p>Email: " ++
        "a@stu.pathfinder-mm.org" ++ "</p>\n        <p>Role: <b>" ++
        "student" ++ "</b></p>\n        " ++ studentBlock ++ dashboardTail) ∧
    dashboardRouteHtml
        { user := some ⟨"random@gmail.com", "Randy", "general"⟩ } =
      .html (dashboardHead ++ "Randy" ++ "</h2>\n        <p>Email: " ++
        "random@gmail.com" ++ "</p>\n        <p>Role: <b>" ++
        "general" ++ "</b></p>\n        " ++ generalBlock ++ dashboardTail) :=
  ⟨(dashboardHtml_role_keyed ⟨"a@stu.pathfinder-mm.org", "Alice", "student"⟩).1 rfl,
   (dashboardHtml_role_keyed ⟨"random@gmail.com", "Randy", "general"⟩).2.1
     (by decide)⟩
